import Mathlib

/-!
Shallow embedding of the session controller of the bank-assistant app
(frontend file App.js). The client is a React component; each handler is
modelled as a pure function from the current session state (the React
state hooks) and the network response to the next session state together
with the list of observable effects it produces (toasts, speech, console
output, transaction requests). Network responses are inputs of type
Option: some for a successful response, none for a failed request.
-/

/-- A chat log entry, App.js lines 163 and 175: a record with role and content. -/
structure ChatMessage where
  role : String
  content : String
deriving Repr, DecidableEq

/-- The user record returned by the backend on register and login. -/
structure UserRec where
  id : String
  name : String
  phone : String
  balance : Int
deriving Repr, DecidableEq

/-- A transaction record as rendered by the dashboard (field type of the
source is called txnType here). -/
structure Txn where
  id : String
  txnType : String
  amount : Int
  description : String
  timestamp : String
deriving Repr, DecidableEq

/-- The React state hooks of App, lines 14 to 26. -/
structure SessionState where
  stage : String
  phone : String
  otp : String
  pin : String
  name : String
  user : Option UserRec
  transcript : String
  messages : List ChatMessage
  inputMessage : String
  balance : Int
  transactions : List Txn
  sessionId : String
deriving Repr, DecidableEq

/-- Observable effects of a handler: toast notifications, console logging,
speech synthesis, and the transaction-list GET request with its limit. -/
inductive Effect where
  | toastSuccess (msg : String)
  | toastError (msg : String)
  | consoleError (msg : String)
  | speak (text : String)
  | txnFetch (userId : String) (lim : Nat)
  | chatPost (message : String) (userId : String) (sessionId : String)
deriving Repr, DecidableEq

/-- True for toast effects, the user-visible notifications. -/
def isToast : Effect → Bool
  | Effect.toastSuccess _ => true
  | Effect.toastError _ => true
  | _ => false

/-- True for the transaction-list fetch effect. -/
def isTxnFetch : Effect → Bool
  | Effect.txnFetch _ _ => true
  | _ => false

/-- The initial session state of App, lines 14 to 26: stage auth, empty
inputs, no user, empty logs, balance zero. -/
def mkInit (sid : String) : SessionState :=
  { stage := "auth", phone := "", otp := "", pin := "", name := "",
    user := none, transcript := "", messages := [], inputMessage := "",
    balance := 0, transactions := [], sessionId := sid }

/-- sendOTP, App.js lines 88 to 96. On a successful response (carrying the
mock OTP) it toasts and sets the stage to verify-otp; on failure it only
toasts an error. No guard on the phone value is applied. -/
def sendOTP (s : SessionState) (resp : Option String) :
    SessionState × List Effect :=
  match resp with
  | some mockOtp =>
      ({ s with stage := "verify-otp" },
       [Effect.toastSuccess ("OTP sent: " ++ mockOtp)])
  | none => (s, [Effect.toastError "Failed to send OTP"])

/-- verifyOTP, App.js lines 98 to 117. The response carries the pair
(success, user_exists); a failed request is none. -/
def verifyOTP (s : SessionState) (resp : Option (Bool × Bool)) :
    SessionState × List Effect :=
  match resp with
  | some (succ, userExists) =>
      if succ then
        if userExists then
          ({ s with stage := "login" }, [Effect.toastSuccess "OTP verified!"])
        else
          ({ s with stage := "register" }, [Effect.toastSuccess "OTP verified!"])
      else (s, [Effect.toastError "Invalid OTP"])
  | none => (s, [Effect.toastError "Invalid OTP"])

/-- loadDashboard, App.js lines 151 to 158. Issues the transaction GET with
limit 5; on success stores the list, on failure only logs to the console
(no toast). -/
def loadDashboard (s : SessionState) (userId : String)
    (resp : Option (List Txn)) : SessionState × List Effect :=
  match resp with
  | some txns =>
      ({ s with transactions := txns }, [Effect.txnFetch userId 5])
  | none =>
      (s, [Effect.txnFetch userId 5,
           Effect.consoleError "Failed to load transactions"])

/-- register, App.js lines 119 to 135. On success stores the user, sets
balance from the response, moves to dashboard, toasts, speaks the welcome
and calls loadDashboard with the new user id. -/
def register (s : SessionState) (resp : Option UserRec)
    (txnResp : Option (List Txn)) : SessionState × List Effect :=
  match resp with
  | some u =>
      let s1 := { s with user := some u, balance := u.balance,
                         stage := "dashboard" }
      let r := loadDashboard s1 u.id txnResp
      (r.1,
       Effect.toastSuccess "Account created successfully!" ::
       Effect.speak "Welcome to VoiceBank AI. Your account has been created successfully." ::
       r.2)
  | none => (s, [Effect.toastError "Registration failed"])

/-- login, App.js lines 137 to 149. Mirrors register with the welcome-back
speech and its own toasts. -/
def login (s : SessionState) (resp : Option UserRec)
    (txnResp : Option (List Txn)) : SessionState × List Effect :=
  match resp with
  | some u =>
      let s1 := { s with user := some u, balance := u.balance,
                         stage := "dashboard" }
      let r := loadDashboard s1 u.id txnResp
      (r.1,
       Effect.toastSuccess "Login successful!" ::
       Effect.speak ("Welcome back " ++ u.name ++ ". Your current balance is "
                     ++ toString u.balance ++ " rupees.") ::
       r.2)
  | none => (s, [Effect.toastError "Invalid credentials"])

/-- Substring occurrence on character lists: pat occurs at some position. -/
def containsSubList (pat : List Char) : List Char → Bool
  | [] => pat.isEmpty
  | c :: cs => pat.isPrefixOf (c :: cs) || containsSubList pat cs

/-- JS String.includes: pat occurs as a contiguous substring of s. -/
def containsSub (s pat : String) : Bool :=
  containsSubList pat.data s.data

/-- The refresh heuristic of App.js line 181: the outgoing message,
lowercased, includes transaction or transfer. -/
def shouldRefresh (msg : String) : Bool :=
  containsSub msg.toLower "transaction" || containsSub msg.toLower "transfer"

/-- The id sent with chat requests, user.id in the source (the source
dereferences user unconditionally; the model defaults to the empty id when
user is absent, a situation the UI cannot produce). -/
def userIdOf (u : Option UserRec) : String :=
  match u with
  | some usr => usr.id
  | none => ""

/-- JS String.trim: remove leading and trailing whitespace. -/
def jsTrim (s : String) : String :=
  ⟨((s.data.dropWhile Char.isWhitespace).reverse.dropWhile
      Char.isWhitespace).reverse⟩

/-- sendMessage, App.js lines 160 to 189. Guard: return early when the
trimmed input is empty. Otherwise append the user entry, clear input and
transcript, post the chat request; on success append the assistant reply,
overwrite balance, speak, and refresh transactions when the heuristic
fires; on failure toast and append the fixed fallback assistant entry. -/
def sendMessage (s : SessionState) (resp : Option (String × Int))
    (txnResp : Option (List Txn)) : SessionState × List Effect :=
  if jsTrim s.inputMessage = "" then (s, [])
  else
    let msg := s.inputMessage
    let s1 := { s with messages := s.messages ++ [ChatMessage.mk "user" msg],
                       inputMessage := "", transcript := "" }
    match resp with
    | some (respText, userBal) =>
        let s2 := { s1 with
                    messages := s1.messages ++ [ChatMessage.mk "assistant" respText],
                    balance := userBal }
        if shouldRefresh msg then
          let r := loadDashboard s2 (userIdOf s.user) txnResp
          (r.1,
           Effect.chatPost msg (userIdOf s.user) s.sessionId ::
           Effect.speak respText :: r.2)
        else
          (s2, [Effect.chatPost msg (userIdOf s.user) s.sessionId,
                Effect.speak respText])
    | none =>
        ({ s1 with
           messages := s1.messages ++
             [ChatMessage.mk "assistant" "Sorry, I encountered an error. Please try again."] },
         [Effect.chatPost msg (userIdOf s.user) s.sessionId,
          Effect.toastError "Failed to send message"])

/-- The logout click handler, App.js lines 306 to 310: reset stage to auth,
clear user and messages. -/
def logout (s : SessionState) : SessionState × List Effect :=
  ({ s with stage := "auth", user := none, messages := [] }, [])

/-! Concrete states used by witnesses and counterexamples. -/

/-- A sample backend user record. -/
def testUser : UserRec :=
  { id := "u1", name := "Asha", phone := "9876543210", balance := 5000 }

/-- A session sitting at the verify-otp stage. -/
def sVerify : SessionState :=
  { mkInit "session_1" with stage := "verify-otp", phone := "9876543210",
                            otp := "123456" }

/-- A logged-in session at the dashboard. -/
def sDash : SessionState :=
  { mkInit "session_1" with stage := "dashboard", user := some testUser,
                            balance := 5000 }

/-- C1: for every OTP verification response with success true, the stage
becomes login when the user exists and register when it does not, and the
user field is unchanged in both cases. -/
theorem c1_verifyOTP_success_routes (s : SessionState) (ue : Bool) :
    (verifyOTP s (some (true, ue))).1.stage
      = (if ue then "login" else "register")
    ∧ (verifyOTP s (some (true, ue))).1.user = s.user := by
  cases ue <;> simp [verifyOTP]

/-- C3: a verification attempt whose outcome is success false, or whose
request fails, leaves the stage at verify-otp and the whole session state
unchanged. -/
theorem c3_verifyOTP_failure_no_advance (s : SessionState)
    (resp : Option (Bool × Bool)) (hs : s.stage = "verify-otp")
    (h : ∀ ue, resp ≠ some (true, ue)) :
    (verifyOTP s resp).1.stage = "verify-otp" ∧ (verifyOTP s resp).1 = s := by
  cases resp with
  | none => simp [verifyOTP, hs]
  | some p =>
      obtain ⟨succ, ue⟩ := p
      cases succ with
      | false => simp [verifyOTP, hs]
      | true => exact absurd rfl (h ue)

/-- C3 witness: a concrete rejected OTP at the verify-otp stage. -/
theorem c3_witness :
    (verifyOTP sVerify (some (false, false))).1.stage = "verify-otp"
    ∧ (verifyOTP sVerify (some (false, false))).1 = sVerify :=
  c3_verifyOTP_failure_no_advance sVerify (some (false, false)) rfl
    (by intro ue hcontra; simp at hcontra)

/-- C6: logout resets the stage to auth, clears the user and empties the
message log, from every prior state. -/
theorem c6_logout_resets (s : SessionState) :
    (logout s).1.stage = "auth" ∧ (logout s).1.user = none
    ∧ (logout s).1.messages = [] := by
  simp [logout]

/-- C8 counterexample: the claim says an empty phone submission does not
advance the stage, but sendOTP applies no phone guard: from the initial
state, whose phone is empty, a successful response still moves the stage
to verify-otp. -/
theorem c8_counterexample :
    (mkInit "session_1").phone = "" ∧ (mkInit "session_1").stage = "auth"
    ∧ (sendOTP (mkInit "session_1") (some "123456")).1.stage = "verify-otp" :=
  ⟨rfl, rfl, rfl⟩

/-- C8 amended: at stage auth, submitting the phone moves the stage to
verify-otp exactly when the request succeeds; the client applies no
non-empty guard to the phone value, and a failed request leaves the state
unchanged at auth. -/
theorem c8_no_phone_guard (s : SessionState) (m : String)
    (hs : s.stage = "auth") :
    (sendOTP s (some m)).1.stage = "verify-otp"
    ∧ (sendOTP s none).1.stage = "auth"
    ∧ (sendOTP s none).1 = s := by
  refine ⟨rfl, ?_, rfl⟩
  simpa [sendOTP] using hs

/-- C8 witness: the amended statement at the initial state. -/
theorem c8_witness :
    (sendOTP (mkInit "session_2") (some "654321")).1.stage = "verify-otp"
    ∧ (sendOTP (mkInit "session_2") none).1.stage = "auth"
    ∧ (sendOTP (mkInit "session_2") none).1 = mkInit "session_2" :=
  c8_no_phone_guard (mkInit "session_2") "654321" rfl

/-- C10: when the input message trims to the empty string, sendMessage is a
complete no-op: the state is returned unchanged and no effect, in
particular no chat request, is produced. -/
theorem c10_blank_message_noop (s : SessionState)
    (resp : Option (String × Int)) (txnResp : Option (List Txn))
    (h : jsTrim s.inputMessage = "") :
    sendMessage s resp txnResp = (s, []) := by
  simp [sendMessage, h]

/-- C10 witness: a whitespace-only message at the dashboard. -/
theorem c10_witness :
    jsTrim ({ sDash with inputMessage := "   " }).inputMessage = ""
    ∧ sendMessage { sDash with inputMessage := "   " } (some ("ok", 5)) none
      = ({ sDash with inputMessage := "   " }, []) :=
  ⟨by decide, c10_blank_message_noop _ (some ("ok", 5)) none (by decide)⟩

/-- C2 counterexample: the claim quantifies over every non-empty input
message, but a whitespace-only message is non-empty and sendMessage
appends nothing for it: the early-return guard tests the trimmed input. -/
theorem c2_counterexample :
    ({ sDash with inputMessage := " " }).inputMessage ≠ ""
    ∧ (sendMessage { sDash with inputMessage := " " }
        (some ("ok", 5)) none).1.messages
      = ({ sDash with inputMessage := " " }).messages := by
  exact ⟨by decide, by decide⟩

/-- C2 amended: for every input message that is non-blank (non-empty after
trimming whitespace), sendMessage appends exactly the user entry carrying
the input text followed by exactly one assistant entry: the returned
response text on success, the fixed fallback text on failure; on success
the balance is overwritten with the returned user balance, on failure it
is unchanged, and in both cases the user entry stays in the log. -/
theorem c2_chat_appends_one_pair (s : SessionState)
    (resp : Option (String × Int)) (txnResp : Option (List Txn))
    (h : jsTrim s.inputMessage ≠ "") :
    (sendMessage s resp txnResp).1.messages
      = s.messages ++
        [ChatMessage.mk "user" s.inputMessage,
         ChatMessage.mk "assistant"
           (match resp with
            | some (r, _) => r
            | none => "Sorry, I encountered an error. Please try again.")]
    ∧ (sendMessage s resp txnResp).1.balance
      = (match resp with
         | some (_, b) => b
         | none => s.balance) := by
  cases resp with
  | none => simp [sendMessage, h]
  | some p =>
      obtain ⟨r, b⟩ := p
      cases hr : shouldRefresh s.inputMessage <;>
        cases txnResp <;>
          simp [sendMessage, h, hr, loadDashboard]

/-- C2 witness: a concrete successful exchange at the dashboard. -/
theorem c2_witness :
    jsTrim ({ sDash with inputMessage := "hello" }).inputMessage ≠ ""
    ∧ ((sendMessage { sDash with inputMessage := "hello" }
          (some ("hi there", 4200)) none).1.messages
        = ({ sDash with inputMessage := "hello" }).messages ++
          [ChatMessage.mk "user" "hello", ChatMessage.mk "assistant" "hi there"]
      ∧ (sendMessage { sDash with inputMessage := "hello" }
          (some ("hi there", 4200)) none).1.balance = 4200) :=
  ⟨by decide,
   c2_chat_appends_one_pair { sDash with inputMessage := "hello" }
     (some ("hi there", 4200)) none (by decide)⟩

/-- C4: after a successful register and after a successful login, the
stored balance equals the balance of the returned user record, the stage
becomes dashboard, and the transaction fetch for that user id with limit 5
is issued. -/
theorem c4_auth_success_dashboard (s : SessionState) (u : UserRec)
    (txnResp : Option (List Txn)) :
    ((register s (some u) txnResp).1.balance = u.balance
      ∧ (register s (some u) txnResp).1.stage = "dashboard"
      ∧ Effect.txnFetch u.id 5 ∈ (register s (some u) txnResp).2)
    ∧ ((login s (some u) txnResp).1.balance = u.balance
      ∧ (login s (some u) txnResp).1.stage = "dashboard"
      ∧ Effect.txnFetch u.id 5 ∈ (login s (some u) txnResp).2) := by
  cases txnResp <;> simp [register, login, loadDashboard]

/-- C5: after a successful chat exchange on a non-blank message, the
transaction fetch is issued if and only if the lowercased message contains
the substring transaction or the substring transfer. -/
theorem c5_refresh_iff_keyword (s : SessionState) (r : String) (b : Int)
    (txnResp : Option (List Txn)) (h : jsTrim s.inputMessage ≠ "") :
    ((sendMessage s (some (r, b)) txnResp).2.any isTxnFetch = true)
      ↔ (containsSub s.inputMessage.toLower "transaction"
         || containsSub s.inputMessage.toLower "transfer") = true := by
  show _ ↔ shouldRefresh s.inputMessage = true
  cases hr : shouldRefresh s.inputMessage <;>
    cases txnResp <;>
      simp [sendMessage, h, hr, loadDashboard, isTxnFetch]

/-- C5 witness: the message Show my transfers triggers the refresh and the
message What is my balance does not. -/
theorem c5_witness :
    (jsTrim ({ sDash with inputMessage := "Show my transfers" }).inputMessage ≠ ""
      ∧ (((sendMessage { sDash with inputMessage := "Show my transfers" }
            (some ("done", 5)) none).2.any isTxnFetch = true)
         ↔ (containsSub "Show my transfers".toLower "transaction"
            || containsSub "Show my transfers".toLower "transfer") = true))
    ∧ (jsTrim ({ sDash with inputMessage := "What is my balance?" }).inputMessage ≠ ""
      ∧ (((sendMessage { sDash with inputMessage := "What is my balance?" }
            (some ("Your balance is 5000", 5000)) none).2.any isTxnFetch = true)
         ↔ (containsSub "What is my balance?".toLower "transaction"
            || containsSub "What is my balance?".toLower "transfer") = true)) :=
  ⟨⟨by decide,
    c5_refresh_iff_keyword { sDash with inputMessage := "Show my transfers" }
      "done" 5 none (by decide)⟩,
   ⟨by decide,
    c5_refresh_iff_keyword { sDash with inputMessage := "What is my balance?" }
      "Your balance is 5000" 5000 none (by decide)⟩⟩

/-- C9 counterexample: the claim says every failing external call produces
a user-visible notification, but a failing transaction fetch only logs to
the console: its effect list carries no toast. -/
theorem c9_counterexample :
    (loadDashboard sDash "u1" none).2
      = [Effect.txnFetch "u1" 5,
         Effect.consoleError "Failed to load transactions"]
    ∧ (loadDashboard sDash "u1" none).2.any isToast = false := by
  exact ⟨rfl, rfl⟩

/-- C9 amended: a failing send-otp, verify-otp, register, login, or chat
call each produce a toast notification, while a failing transaction fetch
produces none, only a console log. -/
theorem c9_failure_notifications (s : SessionState) (uid : String)
    (h : jsTrim s.inputMessage ≠ "") :
    (sendOTP s none).2.any isToast = true
    ∧ (verifyOTP s none).2.any isToast = true
    ∧ (register s none none).2.any isToast = true
    ∧ (login s none none).2.any isToast = true
    ∧ (sendMessage s none none).2.any isToast = true
    ∧ (loadDashboard s uid none).2.any isToast = false := by
  simp [sendOTP, verifyOTP, register, login, sendMessage, loadDashboard,
        h, isToast]

/-- C9 witness: the amended statement at a concrete dashboard state. -/
theorem c9_witness :
    (sendOTP { sDash with inputMessage := "hi" } none).2.any isToast = true
    ∧ (verifyOTP { sDash with inputMessage := "hi" } none).2.any isToast = true
    ∧ (register { sDash with inputMessage := "hi" } none none).2.any isToast = true
    ∧ (login { sDash with inputMessage := "hi" } none none).2.any isToast = true
    ∧ (sendMessage { sDash with inputMessage := "hi" } none none).2.any isToast = true
    ∧ (loadDashboard { sDash with inputMessage := "hi" } "u1" none).2.any isToast = false :=
  c9_failure_notifications { sDash with inputMessage := "hi" } "u1" (by decide)

/-- One UI step: each handler fires only at the stage where its button is
rendered (App.js lines 202, 222, 242, 273 and 424), with an arbitrary
response; editStep covers the controlled text inputs and the speech
transcript, which change no other field. -/
inductive Step : SessionState → SessionState → Prop where
  | sendOtpStep (s : SessionState) (resp : Option String)
      (hs : s.stage = "auth") : Step s (sendOTP s resp).1
  | verifyOtpStep (s : SessionState) (resp : Option (Bool × Bool))
      (hs : s.stage = "verify-otp") : Step s (verifyOTP s resp).1
  | registerStep (s : SessionState) (resp : Option UserRec)
      (txnResp : Option (List Txn)) (hs : s.stage = "register") :
      Step s (register s resp txnResp).1
  | loginStep (s : SessionState) (resp : Option UserRec)
      (txnResp : Option (List Txn)) (hs : s.stage = "login") :
      Step s (login s resp txnResp).1
  | sendMessageStep (s : SessionState) (resp : Option (String × Int))
      (txnResp : Option (List Txn)) (hs : s.stage = "dashboard") :
      Step s (sendMessage s resp txnResp).1
  | logoutStep (s : SessionState) (hs : s.stage = "dashboard") :
      Step s (logout s).1
  | editStep (s : SessionState) (ph ot pn nm im tr : String) :
      Step s { s with phone := ph, otp := ot, pin := pn, name := nm,
                      inputMessage := im, transcript := tr }

/-- States reachable from the initial session by the UI steps. -/
inductive Reachable : SessionState → Prop where
  | init (sid : String) : Reachable (mkInit sid)
  | step {s t : SessionState} (h : Reachable s) (hst : Step s t) : Reachable t

/-- sendMessage never changes the stage or the user field. -/
theorem sendMessage_stage_user (s : SessionState)
    (resp : Option (String × Int)) (txnResp : Option (List Txn)) :
    (sendMessage s resp txnResp).1.stage = s.stage
    ∧ (sendMessage s resp txnResp).1.user = s.user := by
  by_cases h : jsTrim s.inputMessage = ""
  · simp [sendMessage, h]
  · cases resp with
    | none => simp [sendMessage, h]
    | some p =>
        obtain ⟨r, b⟩ := p
        cases hr : shouldRefresh s.inputMessage <;>
          cases txnResp <;>
            simp [sendMessage, h, hr, loadDashboard]

/-- A state whose stage is not dashboard and which satisfies the
stage-user correspondence has no user. -/
theorem user_none_of_stage_ne {s : SessionState}
    (hinv : s.user.isSome = true ↔ s.stage = "dashboard")
    (hs : s.stage ≠ "dashboard") : s.user = none := by
  cases hu : s.user with
  | none => rfl
  | some u => exact absurd (hinv.mp (by simp [hu])) hs

/-- Every UI step preserves the stage-user correspondence. -/
theorem step_preserves_inv {s t : SessionState} (hst : Step s t)
    (hinv : s.user.isSome = true ↔ s.stage = "dashboard") :
    t.user.isSome = true ↔ t.stage = "dashboard" := by
  cases hst with
  | sendOtpStep resp hs =>
      have hu : s.user = none :=
        user_none_of_stage_ne hinv (by rw [hs]; decide)
      cases resp <;> simp [sendOTP, hu, hs]
  | verifyOtpStep resp hs =>
      have hu : s.user = none :=
        user_none_of_stage_ne hinv (by rw [hs]; decide)
      cases resp with
      | none => simp [verifyOTP, hu, hs]
      | some p =>
          obtain ⟨succ, ue⟩ := p
          cases succ <;> cases ue <;> simp [verifyOTP, hu, hs]
  | registerStep resp txnResp hs =>
      cases resp with
      | none => simpa [register] using hinv
      | some u => cases txnResp <;> simp [register, loadDashboard]
  | loginStep resp txnResp hs =>
      cases resp with
      | none => simpa [login] using hinv
      | some u => cases txnResp <;> simp [login, loadDashboard]
  | sendMessageStep resp txnResp hs =>
      rw [(sendMessage_stage_user s resp txnResp).1,
          (sendMessage_stage_user s resp txnResp).2]
      exact hinv
  | logoutStep hs => simp [logout]
  | editStep ph ot pn nm im tr => simpa using hinv

/-- C7: in every session state reachable from the initial state by the UI
steps, the user field is non-null exactly when the stage is dashboard. -/
theorem c7_user_iff_dashboard (s : SessionState) (h : Reachable s) :
    s.user.isSome = true ↔ s.stage = "dashboard" := by
  induction h with
  | init sid => simp [mkInit]
  | step h hst ih => exact step_preserves_inv hst ih

/-- C7 witness: the invariant at the concrete initial state. -/
theorem c7_witness :
    (mkInit "session_1700000000000").user.isSome = true
    ↔ (mkInit "session_1700000000000").stage = "dashboard" :=
  c7_user_iff_dashboard (mkInit "session_1700000000000")
    (Reachable.init "session_1700000000000")
